import Mathlib

/-!
Verification of the ShimmieStack event-store core (`eventbase.ts`) and the
test-harness request helpers (`shimmieteststack.ts`).

The store is a thin closure over a postgres client: construction validates the
connection string; `init` connects and creates the `eventlist` table;
`addEvent` issues a parameterised INSERT with a RETURNING clause;
`getAllEventsInOrder` issues `SELECT * FROM eventlist ORDER BY SequenceNum`;
`reset` drops and recreates the table; every query goes through `runQuery`,
which catches, logs and rethrows backend errors.

The postgres backend is an external collaborator; it is modelled here by its
documented semantics for exactly the statements the store issues: a
`bigserial` primary key assigns consecutive sequence numbers starting from 1
(and is dropped together with the table), `CREATE TABLE IF NOT EXISTS` and
`DROP TABLE IF EXISTS` are idempotent, inserting into or selecting from a
missing table raises an undefined-table error, and `now()` supplies the
`LogDate` default at write time (modelled by a logical clock).  `jsonb`
columns store the parsed JSON document; the `JSON.stringify` / jsonb-parse
boundary is value-preserving for tree-structured payloads, so the embedding
carries the structured value across it directly.  Backend faults other than a
missing table (connection drop, privilege error, ...) are modelled by a fault
oracle: a queue of booleans consumed one entry per executed query, where
`false` makes that query fail.  The empty oracle is the fault-free backend.
-/

namespace ShimmieStack

/-- A structured JSON-compatible payload value (objects / arrays / primitives),
the shape of the `data` and `meta` fields of an event. -/
inductive Json where
  | null
  | bool (b : Bool)
  | num (n : Int)
  | str (s : String)
  | arr (elems : List Json)
  | obj (fields : List (String × Json))

/-- The unpersisted event submitted to `addEvent`, with exactly the fields the
store reads: `streamId`, `data`, `type`, `meta` (the `Event` type of
`event.ts`, reconstructed from its use in `addEvent` and the spec data model). -/
structure Event where
  streamId : String
  data : Json
  type : String
  meta : Json

/-- One row of the `eventlist` table, with the six columns declared by
`createTables`: SequenceNum, StreamId, Data, Type, Meta, LogDate. -/
structure StoredRow where
  sequenceNum : Nat
  streamId : String
  data : Json
  type : String
  meta : Json
  logDate : Nat

/-- The `eventlist` table together with its bigserial sequence counter
(next value to be assigned to SequenceNum). -/
structure EventTable where
  rows : List StoredRow
  nextSeq : Nat

/-- Backend state: the `eventlist` table if it exists, the write-time clock
feeding the `now()` default of LogDate, and whether the client is connected. -/
structure PgState where
  table : Option EventTable
  clock : Nat
  connected : Bool

/-- The four SQL statements the store issues (see `addEvent`,
`getAllEventsInOrder`, `createTables`, `dropTables` in the source). -/
inductive SqlQuery where
  | insertEvent (streamId : String) (data : Json) (type : String) (meta : Json)
  | selectAllOrdered
  | createTable
  | dropTable

/-- A value in a result row returned by the pg driver. -/
inductive PgValue where
  | int (n : Nat)
  | text (s : String)
  | jsonb (j : Json)
  | ts (t : Nat)

/-- A result row as the pg driver returns it: an association of (lower-cased)
column names to values. -/
abbrev PgRow := List (String × PgValue)

/-- Errors raised by the backend: undefined relation (insert/select on a
missing table) or an oracle-injected fault on a given query. -/
inductive PgError where
  | undefinedTable (relation : String)
  | injected (q : SqlQuery)

/-- The four columns of the INSERT RETURNING clause, in its order:
`RETURNING SequenceNum, streamId, logdate, type`. -/
def returningRow (r : StoredRow) : PgRow :=
  [("sequencenum", PgValue.int r.sequenceNum),
   ("streamid", PgValue.text r.streamId),
   ("logdate", PgValue.ts r.logDate),
   ("type", PgValue.text r.type)]

/-- A full row as returned by `SELECT *`, in table column order. -/
def fullRow (r : StoredRow) : PgRow :=
  [("sequencenum", PgValue.int r.sequenceNum),
   ("streamid", PgValue.text r.streamId),
   ("data", PgValue.jsonb r.data),
   ("type", PgValue.text r.type),
   ("meta", PgValue.jsonb r.meta),
   ("logdate", PgValue.ts r.logDate)]

/-- Insert a row into a list ordered by SequenceNum (helper for `sortBySeq`). -/
def insertBySeq (r : StoredRow) : List StoredRow → List StoredRow
  | [] => [r]
  | x :: xs =>
    if r.sequenceNum ≤ x.sequenceNum then r :: x :: xs else x :: insertBySeq r xs

/-- `ORDER BY SequenceNum`: sort rows by ascending SequenceNum. -/
def sortBySeq : List StoredRow → List StoredRow
  | [] => []
  | x :: xs => insertBySeq x (sortBySeq xs)

/-- Execution of one SQL statement against the backend, per the documented
postgres semantics of the four statements the store uses. -/
def pgExec (q : SqlQuery) (s : PgState) : Except PgError (List PgRow × PgState) :=
  match q with
  | SqlQuery.createTable =>
    match s.table with
    | none => Except.ok ([], { s with table := some { rows := [], nextSeq := 1 } })
    | some _ => Except.ok ([], s)
  | SqlQuery.dropTable => Except.ok ([], { s with table := none })
  | SqlQuery.insertEvent sid d ty m =>
    match s.table with
    | none => Except.error (PgError.undefinedTable "eventlist")
    | some t =>
      let row : StoredRow :=
        { sequenceNum := t.nextSeq, streamId := sid, data := d, type := ty,
          meta := m, logDate := s.clock }
      Except.ok ([returningRow row],
        { s with table := some { rows := t.rows ++ [row], nextSeq := t.nextSeq + 1 },
                 clock := s.clock + 1 })
  | SqlQuery.selectAllOrdered =>
    match s.table with
    | none => Except.error (PgError.undefinedTable "eventlist")
    | some t => Except.ok ((sortBySeq t.rows).map fullRow, s)

/-- Fault oracle: one entry consumed per executed query; `false` injects a
backend failure on that query.  `[]` means no injected faults. -/
abbrev Oracle := List Bool

/-- Outcome of a store operation: the value or error given to the caller, the
resulting backend state, the remaining oracle, and the list of queries that
were actually executed. -/
structure OpResult (α : Type) where
  res : Except PgError α
  st : PgState
  oracle : Oracle
  trace : List SqlQuery

/-- `runQuery` of the source: executes one statement; on failure it logs and
rethrows the same error (the catch block does not swallow or replace it), and
it never re-executes the statement. -/
def runQuery (q : SqlQuery) (s : PgState) (orc : Oracle) : OpResult (List PgRow) :=
  if orc.head? = some false then
    { res := Except.error (PgError.injected q), st := s, oracle := orc.tail, trace := [q] }
  else
    match pgExec q s with
    | Except.ok (rows, s1) => { res := Except.ok rows, st := s1, oracle := orc.tail, trace := [q] }
    | Except.error e => { res := Except.error e, st := s, oracle := orc.tail, trace := [q] }

/-- `addEvent` of the source: one parameterised INSERT carrying streamId,
stringified data, type and stringified meta, returned through `runQuery`. -/
def addEvent (event : Event) (s : PgState) (orc : Oracle) : OpResult (List PgRow) :=
  runQuery (SqlQuery.insertEvent event.streamId event.data event.type event.meta) s orc

/-- `getAllEventsInOrder` of the source: `SELECT * FROM eventlist ORDER BY
SequenceNum` through `runQuery`. -/
def getAllEventsInOrder (s : PgState) (orc : Oracle) : OpResult (List PgRow) :=
  runQuery SqlQuery.selectAllOrdered s orc

/-- `createTables` of the source: `CREATE TABLE IF NOT EXISTS eventlist (...)`
through `runQuery`. -/
def createTables (s : PgState) (orc : Oracle) : OpResult (List PgRow) :=
  runQuery SqlQuery.createTable s orc

/-- `dropTables` of the source: `DROP TABLE IF EXISTS eventlist` through
`runQuery`.  (The try/catch around it wraps a promise that is returned, not
awaited, so its catch branch is unreachable; semantically `dropTables` is
exactly the query.) -/
def dropTables (s : PgState) (orc : Oracle) : OpResult (List PgRow) :=
  runQuery SqlQuery.dropTable s orc

/-- `reset` of the source: `await dropTables(); await createTables();` — both
awaited, so a failure of either is raised to the caller. -/
def reset (s : PgState) (orc : Oracle) : OpResult Unit :=
  let d := dropTables s orc
  match d.res with
  | Except.error e => { res := Except.error e, st := d.st, oracle := d.oracle, trace := d.trace }
  | Except.ok _ =>
    let c := createTables d.st d.oracle
    match c.res with
    | Except.error e =>
      { res := Except.error e, st := c.st, oracle := c.oracle, trace := d.trace ++ c.trace }
    | Except.ok _ =>
      { res := Except.ok (), st := c.st, oracle := c.oracle, trace := d.trace ++ c.trace }

/-- `init` of the source: `await connection.connect(); createTables();`.
The connect is modelled as always succeeding (reaching the backend is outside
these claims).  `createTables()` is invoked WITHOUT `await`: its query still
executes on the shared client (queries on one pg client are queued in order),
so its state effect is applied, but its promise is floating — a failure of the
CREATE TABLE statement is never raised to the caller of `init`, which resolves
with success regardless. -/
def init (s : PgState) (orc : Oracle) : OpResult Unit :=
  let s1 : PgState := { s with connected := true }
  let c := createTables s1 orc
  { res := Except.ok (), st := c.st, oracle := c.oracle, trace := c.trace }

/-- `shutdown` of the source: `await connection.end()`.  The pg client's
`end()` resolves whether or not the client ever connected; it releases the
connection. -/
def shutdown (s : PgState) (orc : Oracle) : OpResult Unit :=
  { res := Except.ok (), st := { s with connected := false }, oracle := orc, trace := [] }

/-- The `EventConfig` passed to the constructor. -/
structure EventConfig where
  connectionString : String

/-- The pg `Client` handle created by the constructor (`new Client({...})`
performs no network I/O; connecting happens in `init`). -/
structure Client where
  connectionString : String

/-- A network-level action against the backend, used to state that
construction performs none. -/
inductive NetAction where
  | connect
  | querySent (q : SqlQuery)
  | close

/-- The `Eventbase` constructor: throws the missing-DATABASE_URL error when
the connection string is falsy (the empty string, for a string-typed field),
otherwise creates the client.  Second component: the network actions performed
during construction. -/
def Eventbase (config : EventConfig) : Except String Client × List NetAction :=
  if config.connectionString = "" then
    (Except.error "Missing DATABASE_URL environment variable.", [])
  else
    (Except.ok { connectionString := config.connectionString }, [])

/-- `req.set(name, value)` of supertest: sets the header, replacing any
existing header of the same name. -/
def setHeader (req : List (String × String)) (name value : String) :
    List (String × String) :=
  req.filter (fun p => p.1 ≠ name) ++ [(name, value)]

/-- `prepareRequest` of the test harness, restricted to the headers it puts on
the request: starting from a fresh request, when an auth header value was
supplied (truthy, i.e. non-empty) and `withAuth` is on, it sets the header
named by the literal source string (single quotes included) to the bearer
token; then it sets each caller-supplied header. -/
def prepareRequest (authHeaderValue : Option String)
    (headers : Option (List (String × String))) (withAuth : Bool) :
    List (String × String) :=
  let req : List (String × String) := []
  let req :=
    match authHeaderValue with
    | some v =>
      if (v != "") && withAuth then
        setHeader req "\x27Authorization\x27" ("Bearer " ++ v)
      else req
    | none => req
  match headers with
  | some hs => hs.foldl (fun acc p => setHeader acc p.1 p.2) req
  | none => req

/-- The backend state before any call: no table, clock at 0, not connected. -/
def emptySt : PgState := { table := none, clock := 0, connected := false }

/-- The state after constructing the store and running `init` fault-free. -/
def freshSt : PgState := (init emptySt []).st

/-- The row `addEvent` appends when the counter is at `n` and the clock at `c`. -/
def mkRow (n c : Nat) (e : Event) : StoredRow :=
  { sequenceNum := n, streamId := e.streamId, data := e.data, type := e.type,
    meta := e.meta, logDate := c }

/-- Run a whole sequence of `addEvent` calls (fault-free backend). -/
def applyEvents (es : List Event) (s : PgState) : PgState :=
  (es.foldl (fun acc e => (addEvent e acc []).st) s)

/-- The rows a sequence of `addEvent` calls appends, starting from counter `n`
and clock `c`. -/
def newRows : List Event → Nat → Nat → List StoredRow
  | [], _, _ => []
  | e :: es, n, c => mkRow n c e :: newRows es (n + 1) (c + 1)

/-- A concrete event used by witnesses (the spec scenario event). -/
def sampleEvent : Event :=
  { streamId := "order-1", data := Json.obj [("amount", Json.num 10)],
    type := "OrderCreated", meta := Json.obj [] }

/-- The named column of the i-th row of a query result, if any. -/
def colOfRow (o : OpResult (List PgRow)) (i : Nat) (col : String) : Option PgValue :=
  match o.res with
  | Except.ok rows => rows[i]?.bind (fun r => List.lookup col r)
  | Except.error _ => none

theorem applyEvents_cons (e : Event) (es : List Event) (s : PgState) :
    applyEvents (e :: es) s = applyEvents es (addEvent e s []).st := rfl

theorem addEvent_st_eq (e : Event) (rows : List StoredRow) (n c : Nat) (b : Bool) :
    (addEvent e
        { table := some { rows := rows, nextSeq := n }, clock := c, connected := b }
        []).st
      = { table := some { rows := rows ++ [mkRow n c e], nextSeq := n + 1 },
          clock := c + 1, connected := b } := rfl

theorem applyEvents_closed :
    ∀ (es : List Event) (rows : List StoredRow) (n c : Nat) (b : Bool),
    applyEvents es
        { table := some { rows := rows, nextSeq := n }, clock := c, connected := b }
      = { table := some { rows := rows ++ newRows es n c, nextSeq := n + es.length },
          clock := c + es.length, connected := b }
  | [], rows, n, c, b => by simp [applyEvents, newRows]
  | e :: es, rows, n, c, b => by
    rw [applyEvents_cons, addEvent_st_eq,
        applyEvents_closed es (rows ++ [mkRow n c e]) (n + 1) (c + 1) b]
    have hn : n + 1 + es.length = n + (es.length + 1) := by omega
    have hc : c + 1 + es.length = c + (es.length + 1) := by omega
    simp [newRows, List.append_assoc, hn, hc]

theorem newRows_map_seq : ∀ (es : List Event) (n c : Nat),
    (newRows es n c).map (fun r => r.sequenceNum) = List.range' n es.length
  | [], _, _ => rfl
  | e :: es, n, c => by
    simp [newRows, mkRow, List.range'_succ, newRows_map_seq es (n + 1) (c + 1)]

theorem newRows_seq_pairwise (es : List Event) (n c : Nat) :
    ((newRows es n c).map (fun r => r.sequenceNum)).Pairwise (fun a b => a < b) := by
  rw [newRows_map_seq]
  exact List.pairwise_lt_range' n es.length

theorem newRows_chain_le (es : List Event) (n c : Nat) :
    List.Chain' (fun a b => a.sequenceNum ≤ b.sequenceNum) (newRows es n c) := by
  have h := newRows_seq_pairwise es n c
  rw [List.pairwise_map] at h
  exact (h.imp fun hab => Nat.le_of_lt hab).chain'

theorem sortBySeq_sorted_fix : ∀ l : List StoredRow,
    List.Chain' (fun a b => a.sequenceNum ≤ b.sequenceNum) l → sortBySeq l = l
  | [] => fun _ => rfl
  | [_] => fun _ => rfl
  | x :: y :: l => fun h => by
    rw [List.chain'_cons] at h
    have ih := sortBySeq_sorted_fix (y :: l) h.2
    show insertBySeq x (sortBySeq (y :: l)) = x :: y :: l
    rw [ih]
    simp [insertBySeq, h.1]

theorem getAll_applyEvents_res (es : List Event) :
    (getAllEventsInOrder (applyEvents es freshSt) []).res
      = Except.ok ((newRows es 1 0).map fullRow) := by
  have hfresh : freshSt
      = { table := some { rows := [], nextSeq := 1 }, clock := 0, connected := true } := rfl
  rw [hfresh, applyEvents_closed]
  simp [getAllEventsInOrder, runQuery, pgExec,
        sortBySeq_sorted_fix (newRows es 1 0) (newRows_chain_le es 1 0)]

theorem newRows_getElem :
    ∀ (es : List Event) (n c i : Nat),
    (newRows es n c)[i]? = es[i]?.map (fun e => mkRow (n + i) (c + i) e)
  | [], n, c, i => by simp [newRows]
  | _ :: _, _, _, 0 => by simp [newRows]
  | e :: es, n, c, i + 1 => by
    have hn : n + 1 + i = n + (i + 1) := by omega
    have hc : c + 1 + i = c + (i + 1) := by omega
    simp [newRows, newRows_getElem es (n + 1) (c + 1) i, hn, hc]

/-- Claim C1: after any sequence of `addEvent` calls on the freshly initialised
store, `getAllEventsInOrder` returns exactly the appended rows; their sequence
numbers are the consecutive range starting at 1 (no duplicates, no gaps) and
are pairwise strictly increasing in the order returned. -/
theorem getAllEventsInOrder_ordered (es : List Event) :
    (getAllEventsInOrder (applyEvents es freshSt) []).res
      = Except.ok ((newRows es 1 0).map fullRow)
    ∧ (newRows es 1 0).map (fun r => r.sequenceNum) = List.range' 1 es.length
    ∧ ((newRows es 1 0).map (fun r => r.sequenceNum)).Pairwise (fun a b => a < b) :=
  ⟨getAll_applyEvents_res es, newRows_map_seq es 1 0, newRows_seq_pairwise es 1 0⟩

/-- Counterexample for Claim C2 as stated: the value returned by `addEvent`
carries no data or meta column at all (its RETURNING clause lists only
SequenceNum, streamId, logdate, type), so the submitted data and meta cannot
be read back from the `addEvent` result. -/
theorem addEvent_result_lacks_data_meta :
    (addEvent sampleEvent freshSt []).res
      = Except.ok [[("sequencenum", PgValue.int 1),
                    ("streamid", PgValue.text "order-1"),
                    ("logdate", PgValue.ts 0),
                    ("type", PgValue.text "OrderCreated")]]
    ∧ (((addEvent sampleEvent freshSt []).res.toOption.bind
          (fun rows => rows.head?)).bind (fun r => List.lookup "data" r)) = none
    ∧ (((addEvent sampleEvent freshSt []).res.toOption.bind
          (fun rows => rows.head?)).bind (fun r => List.lookup "meta" r)) = none :=
  ⟨rfl, rfl, rfl⟩

/-- Claim C2 as amended: round-trip fidelity holds through
`getAllEventsInOrder` — after any run of `addEvent` calls, every submitted
payload's corresponding entry of the read (the i-th row for the i-th call,
including entries followed by later appends) carries exactly the submitted
`data` and `meta` values; the `addEvent` result itself carries no data/meta
columns. -/
theorem getAll_roundtrips_every_data_meta (es : List Event) (i : Nat) (e : Event)
    (h : es[i]? = some e) :
    colOfRow (getAllEventsInOrder (applyEvents es freshSt) []) i "data"
      = some (PgValue.jsonb e.data)
    ∧ colOfRow (getAllEventsInOrder (applyEvents es freshSt) []) i "meta"
      = some (PgValue.jsonb e.meta) := by
  have h1 := getAll_applyEvents_res es
  constructor <;>
    simp [colOfRow, h1, List.getElem?_map, newRows_getElem, h,
          fullRow, mkRow, List.lookup]

/-- Witness for the amended C2: in a two-event run, the first submitted
payload — followed by a later append before the read — round-trips through
the first row of `getAllEventsInOrder`. -/
theorem getAll_roundtrips_every_data_meta_witness :
    colOfRow (getAllEventsInOrder (applyEvents [sampleEvent, sampleEvent] freshSt) [])
        0 "data"
      = some (PgValue.jsonb sampleEvent.data)
    ∧ colOfRow (getAllEventsInOrder (applyEvents [sampleEvent, sampleEvent] freshSt) [])
        0 "meta"
      = some (PgValue.jsonb sampleEvent.meta) :=
  getAll_roundtrips_every_data_meta [sampleEvent, sampleEvent] 0 sampleEvent rfl

/-- Claim C3: on a provisioned backend, `addEvent` returns the persisted form —
one row holding exactly the RETURNING columns sequenceNum (the next value of
the sequence counter), streamId, logDate (the store-assigned write-time
clock), and type. -/
theorem addEvent_returns_persisted (e : Event) (s : PgState) (t : EventTable)
    (h : s.table = some t) :
    (addEvent e s []).res = Except.ok
      [[("sequencenum", PgValue.int t.nextSeq),
        ("streamid", PgValue.text e.streamId),
        ("logdate", PgValue.ts s.clock),
        ("type", PgValue.text e.type)]] := by
  simp [addEvent, runQuery, pgExec, h, returningRow]

/-- Witness for C3: the sample event added to the freshly initialised store
receives sequence number 1 and the clock value 0 as its logDate. -/
theorem addEvent_returns_persisted_witness :
    (addEvent sampleEvent freshSt []).res = Except.ok
      [[("sequencenum", PgValue.int 1),
        ("streamid", PgValue.text "order-1"),
        ("logdate", PgValue.ts 0),
        ("type", PgValue.text "OrderCreated")]] :=
  addEvent_returns_persisted sampleEvent freshSt { rows := [], nextSeq := 1 } rfl

/-- Claim C4: constructing the store with an empty connection string fails with
the missing-DATABASE_URL configuration error and performs no network action;
with a non-empty connection string construction succeeds, still performing no
network action (the backend is not contacted until `init`). -/
theorem Eventbase_construction (cs : String) :
    Eventbase { connectionString := "" }
      = (Except.error "Missing DATABASE_URL environment variable.", [])
    ∧ (cs ≠ "" →
        Eventbase { connectionString := cs }
          = (Except.ok { connectionString := cs }, [])) := by
  refine ⟨rfl, fun h => ?_⟩
  simp [Eventbase, h]

/-- Witness for C4: a concrete non-empty connection string constructs
successfully with no network action. -/
theorem Eventbase_construction_witness :
    Eventbase { connectionString := "postgres://localhost/db" }
      = (Except.ok { connectionString := "postgres://localhost/db" }, []) :=
  (Eventbase_construction "postgres://localhost/db").2 (by decide)

/-- Claim C5 (code bug): the very CREATE TABLE query `init` runs through
`createTables` fails under the injected fault, yet `init` itself still
resolves successfully — because the source calls `createTables()` without
`await`, the failure of the query is never re-raised to `init`'s caller, and
the table is left missing. -/
theorem init_swallows_createTables_failure :
    (createTables { emptySt with connected := true } [false]).res
      = Except.error (PgError.injected SqlQuery.createTable)
    ∧ (init emptySt [false]).res = Except.ok ()
    ∧ ((init emptySt [false]).st).table = none
    ∧ (init emptySt [false]).trace = [SqlQuery.createTable] :=
  ⟨rfl, rfl, rfl, rfl⟩

/-- Claim C6: whatever the prior backend state, after `reset` the read of the
full log is empty and the next `addEvent` starts a fresh sequence at 1. -/
theorem reset_clears_log (s : PgState) (e : Event) :
    (reset s []).res = Except.ok ()
    ∧ (getAllEventsInOrder (reset s []).st []).res = Except.ok []
    ∧ (addEvent e (reset s []).st []).res = Except.ok
        [[("sequencenum", PgValue.int 1),
          ("streamid", PgValue.text e.streamId),
          ("logdate", PgValue.ts s.clock),
          ("type", PgValue.text e.type)]] := by
  refine ⟨?_, ?_, ?_⟩ <;>
    simp [reset, dropTables, createTables, runQuery, pgExec,
          getAllEventsInOrder, addEvent, sortBySeq, returningRow]

/-- Claim C7: a successful `addEvent` grows the table by exactly one row,
appended after the untouched previous rows, and the read operation mutates
nothing. -/
theorem addEvent_appends_one (e : Event) (s : PgState) (t : EventTable)
    (h : s.table = some t) :
    ((addEvent e s []).st).table
      = some { rows := t.rows ++ [mkRow t.nextSeq s.clock e],
               nextSeq := t.nextSeq + 1 }
    ∧ (((addEvent e s []).st).table).map (fun tb => tb.rows.length)
      = some (t.rows.length + 1)
    ∧ (getAllEventsInOrder s []).st = s := by
  refine ⟨?_, ?_, ?_⟩
  · simp [addEvent, runQuery, pgExec, h, mkRow]
  · simp [addEvent, runQuery, pgExec, h, mkRow]
  · cases hs : s.table <;> simp [getAllEventsInOrder, runQuery, pgExec, hs]

/-- Witness for C7: adding the sample event to the fresh store yields the
one-row table holding exactly that row. -/
theorem addEvent_appends_one_witness :
    ((addEvent sampleEvent freshSt []).st).table
      = some { rows := [mkRow 1 0 sampleEvent], nextSeq := 2 } :=
  ((addEvent_appends_one sampleEvent freshSt { rows := [], nextSeq := 1 } rfl).1)

/-- Claim C8: after `init` the table exists (created if absent, kept if
present), and `reset` drops and recreates it — its trace is exactly the DROP
followed by the CREATE, and it leaves a fresh empty table. -/
theorem init_reset_provision (s : PgState) :
    (((init s []).st).table) = some (s.table.getD { rows := [], nextSeq := 1 })
    ∧ (((reset s []).st).table) = some { rows := [], nextSeq := 1 }
    ∧ (reset s []).trace = [SqlQuery.dropTable, SqlQuery.createTable] := by
  refine ⟨?_, ?_, ?_⟩ <;> cases hs : s.table <;>
    simp [init, reset, createTables, dropTables, runQuery, pgExec, hs]

/-- Claim C9: `shutdown` after a successful `init` succeeds and releases the
connection, and `shutdown` on a never-initialised store is a safe no-op. -/
theorem shutdown_safe (s : PgState) :
    (shutdown (init s []).st []).res = Except.ok ()
    ∧ ((shutdown (init s []).st []).st).connected = false
    ∧ (shutdown emptySt []).res = Except.ok () :=
  ⟨rfl, rfl, rfl⟩

/-- Claim C10: when a default auth header value is supplied and `withAuth` is
on, the harness attaches the bearer token under the header literally named
with surrounding single quotes, and the standard Authorization header is not
set by this mechanism. -/
theorem prepareRequest_quoted_auth (v : String) (h : v ≠ "") :
    List.lookup "\x27Authorization\x27" (prepareRequest (some v) none true)
      = some ("Bearer " ++ v)
    ∧ List.lookup "Authorization" (prepareRequest (some v) none true) = none := by
  have hv : (v != "") = true := by simpa using h
  constructor <;> simp [prepareRequest, setHeader, hv, List.lookup]

/-- Witness for C10: a concrete token lands under the quoted header name and
leaves the standard Authorization header unset. -/
theorem prepareRequest_quoted_auth_witness :
    List.lookup "\x27Authorization\x27" (prepareRequest (some "token123") none true)
      = some ("Bearer " ++ "token123")
    ∧ List.lookup "Authorization" (prepareRequest (some "token123") none true)
      = none :=
  prepareRequest_quoted_auth "token123" (by decide)

end ShimmieStack
